import Mathlib

/-!
Shallow embedding of the airport ground-movement graph store from
`airport_graph_agent` (schema.py, db.py, tools/graph_tools.py,
tools/validation_tools.py).

The store is backed by Neo4j; we embed the state as an explicit record of
node and relationship lists and translate each Cypher query used by the
code into a Lean function over that state.  A Neo4j node is identified by
an internal id (`eid` below); relationships connect node identities, not
property values.  Property maps are embedded as records whose optional
fields correspond to the per-label properties that each CREATE query sets.
Python `float` positions x/y never take part in any graph logic (the spec
notes they are used "only for human/visual validation"), so their numeric
type is irrelevant to every claim; we embed them as `Int`.
-/

namespace AirportGraph

/-- schema.py `NodeType` enum. -/
inductive NodeType
  | runwayEnd
  | taxiwayIntersection
  | holdShort
  | fbo
  | terminal
  | ramp
  deriving DecidableEq, Repr

/-- The Neo4j label string of each node type (`NodeType.value` in schema.py). -/
def NodeType.label : NodeType → String
  | .runwayEnd => "RunwayEnd"
  | .taxiwayIntersection => "TaxiwayIntersection"
  | .holdShort => "HoldShort"
  | .fbo => "FBO"
  | .terminal => "Terminal"
  | .ramp => "Ramp"

/-- schema.py `Direction` enum. -/
inductive Direction
  | N | NE | E | SE | S | SW | W | NW
  deriving DecidableEq, Repr

/-- `Direction.value`: the string stored on a relationship. -/
def Direction.str : Direction → String
  | .N => "N" | .NE => "NE" | .E => "E" | .SE => "SE"
  | .S => "S" | .SW => "SW" | .W => "W" | .NW => "NW"

/-- The `opposite_directions` lookup table inside
`graph_tools.create_connection`. -/
def opposite_directions : Direction → Direction
  | .N => .S
  | .NE => .SW
  | .E => .W
  | .SE => .NW
  | .S => .N
  | .SW => .NE
  | .W => .E
  | .NW => .SE

/-- The property map a stored node carries: the common attributes plus the
optional per-label extras that the corresponding CREATE query sets
(schema.py `CREATE_NODE_QUERIES` / `get_node_to_dict`). -/
structure NodeProps where
  id : String
  airport : String
  name : String
  x : Int
  y : Int
  heading : Option Int := none
  runway_id : Option String := none
  taxiways : Option (List String) := none
  runway : Option String := none
  taxiway : Option String := none
  deriving DecidableEq, Repr

/-- A stored Neo4j node: a label, the internal node identity `eid`, and the
property map. -/
structure DBNode where
  label : NodeType
  eid : Nat
  props : NodeProps
  deriving DecidableEq, Repr

/-- A stored `CONNECTS` relationship.  In Neo4j a relationship connects two
node identities (so it can never dangle inside the store itself); it
carries the four attributes set by `CREATE_CONNECTION_QUERY`. -/
structure DBEdge where
  fromEid : Nat
  toEid : Nat
  via : String
  distance : Int
  direction : Direction
  requires_hold : Bool
  deriving DecidableEq, Repr

/-- The database state: nodes, relationships, and the next fresh internal
node identity. -/
structure DB where
  nodes : List DBNode
  edges : List DBEdge
  nextEid : Nat
  deriving DecidableEq, Repr

/-- schema.py `Node` dataclass hierarchy (RunwayEnd, TaxiwayIntersection,
HoldShort, FBO, Terminal, Ramp), as a sum type. -/
inductive Node
  | runwayEnd (id airport name : String) (x y : Int) (heading : Int) (runway_id : String)
  | taxiwayIntersection (id airport name : String) (x y : Int) (taxiways : List String)
  | holdShort (id airport name : String) (x y : Int) (runway taxiway : String)
  | fbo (id airport name : String) (x y : Int)
  | terminal (id airport name : String) (x y : Int)
  | ramp (id airport name : String) (x y : Int)
  deriving DecidableEq, Repr

/-- `node.node_type` of the dataclasses. -/
def Node.node_type : Node → NodeType
  | .runwayEnd .. => .runwayEnd
  | .taxiwayIntersection .. => .taxiwayIntersection
  | .holdShort .. => .holdShort
  | .fbo .. => .fbo
  | .terminal .. => .terminal
  | .ramp .. => .ramp

/-- schema.py `get_node_to_dict`: the Cypher parameter map, which is exactly
the property map the CREATE query stores. -/
def Node.params : Node → NodeProps
  | .runwayEnd id airport name x y heading runway_id =>
      { id, airport, name, x, y, heading := some heading, runway_id := some runway_id }
  | .taxiwayIntersection id airport name x y taxiways =>
      { id, airport, name, x, y, taxiways := some taxiways }
  | .holdShort id airport name x y runway taxiway =>
      { id, airport, name, x, y, runway := some runway, taxiway := some taxiway }
  | .fbo id airport name x y => { id, airport, name, x, y }
  | .terminal id airport name x y => { id, airport, name, x, y }
  | .ramp id airport name x y => { id, airport, name, x, y }

/-- Errors raised by the Neo4j driver that the embedded operations can hit.
`constraintViolation` models the ConstraintError raised when a CREATE
violates one of the per-label `... REQUIRE n.id IS UNIQUE` constraints of
`SCHEMA_CONSTRAINTS`. -/
inductive DBError
  | constraintViolation
  deriving DecidableEq, Repr

/-- db.py `create_node`: runs the per-label CREATE query.  The schema holds
one uniqueness constraint per label (`SCHEMA_CONSTRAINTS`), so the CREATE
raises iff a node with the same label already carries the same `id`;
otherwise the node is stored and its property map is returned
(`dict(record["n"])`). -/
def create_node (db : DB) (n : Node) : Except DBError (DB × NodeProps) :=
  if db.nodes.any (fun m => m.label = n.node_type && m.props.id = n.params.id) then
    .error .constraintViolation
  else
    .ok ({ nodes := db.nodes ++ [⟨n.node_type, db.nextEid, n.params⟩],
           edges := db.edges,
           nextEid := db.nextEid + 1 }, n.params)

/-- schema.py `Connection` dataclass. -/
structure Conn where
  from_id : String
  to_id : String
  via : String
  distance : Int
  direction : Direction
  requires_hold : Bool := false
  deriving DecidableEq, Repr

/-- db.py `create_connection`, i.e. `CREATE_CONNECTION_QUERY`:
`MATCH (a), (b) WHERE a.id = $from_id AND b.id = $to_id CREATE (a)-[r:CONNECTS {...}]->(b) RETURN r`.
The MATCH binds every (a, b) pair of nodes whose ids match, and a
relationship is created per pair; when no pair matches, nothing is created
and `result.single()` is `None`, so the Python function returns `False`
without raising. -/
def create_connection (db : DB) (c : Conn) : DB × Bool :=
  let pairs :=
    (db.nodes.filter (fun a => a.props.id = c.from_id)).flatMap
      (fun a => (db.nodes.filter (fun b => b.props.id = c.to_id)).map (fun b => (a, b)))
  ({ db with
     edges := db.edges ++ pairs.map (fun p =>
       ⟨p.1.eid, p.2.eid, c.via, c.distance, c.direction, c.requires_hold⟩) },
   !pairs.isEmpty)

/-- db.py `clear_database`, i.e. `CLEAR_AIRPORT_QUERY`:
`MATCH (n) WHERE $airport IS NULL OR n.airport = $airport DETACH DELETE n`.
DETACH DELETE removes the matched nodes together with every relationship
incident to a deleted node. -/
def clear_database (db : DB) (airport : Option String) : DB :=
  let doomed : DBNode → Bool := fun n =>
    match airport with
    | none => true
    | some a => n.props.airport = a
  { nodes := db.nodes.filter (fun n => !doomed n),
    edges := db.edges.filter (fun e =>
      !(db.nodes.any (fun n => doomed n && (n.eid = e.fromEid || n.eid = e.toEid)))),
    nextEid := db.nextEid }

/-- A row of `GET_ALL_NODES_QUERY`: id, airport, name, first label, x, y
(the per-label extras are not returned). -/
structure NodeRow where
  id : String
  airport : String
  name : String
  type : String
  x : Int
  y : Int
  deriving DecidableEq, Repr

/-- A row of `GET_ALL_CONNECTIONS_QUERY`. -/
structure ConnRow where
  from_id : String
  to_id : String
  via : String
  distance : Int
  direction : String
  requires_hold : Bool
  deriving DecidableEq, Repr

/-- Comparison key of `ORDER BY airport, type, name` in
`GET_ALL_NODES_QUERY`. -/
def rowLe (a b : NodeRow) : Bool :=
  ((compare a.airport b.airport).then
    ((compare a.type b.type).then (compare a.name b.name))) ≠ .gt

/-- Stable insertion used to realize the ORDER BY of
`GET_ALL_NODES_QUERY`. -/
def insertRow (r : NodeRow) : List NodeRow → List NodeRow
  | [] => [r]
  | x :: xs => if rowLe r x then r :: x :: xs else x :: insertRow r xs

/-- Insertion sort realizing `ORDER BY airport, type, name`. -/
def sortRows : List NodeRow → List NodeRow
  | [] => []
  | x :: xs => insertRow x (sortRows xs)

/-- db.py `get_all_nodes`, i.e. `GET_ALL_NODES_QUERY`: every node of one of
the six labels (all nodes of the embedded state), optionally filtered by
airport, ordered by airport, type, name. -/
def get_all_nodes (db : DB) (airport : Option String) : List NodeRow :=
  sortRows ((db.nodes.filter (fun n =>
      match airport with
      | none => true
      | some a => n.props.airport = a)).map (fun n =>
    ⟨n.props.id, n.props.airport, n.props.name, n.label.label, n.props.x, n.props.y⟩))

/-- The from/to nodes of a stored relationship (in Neo4j a relationship
always has actual endpoint nodes; `find?` resolves the internal id). -/
def edgeEnds (db : DB) (e : DBEdge) : Option (DBNode × DBNode) :=
  match db.nodes.find? (fun n => n.eid = e.fromEid),
        db.nodes.find? (fun n => n.eid = e.toEid) with
  | some a, some b => some (a, b)
  | _, _ => none

/-- db.py `get_all_connections`, i.e. `GET_ALL_CONNECTIONS_QUERY`:
`MATCH (a)-[r:CONNECTS]->(b) WHERE $airport IS NULL OR a.airport = $airport`,
returning the endpoint ids and the relationship attributes. -/
def get_all_connections (db : DB) (airport : Option String) : List ConnRow :=
  db.edges.filterMap (fun e =>
    match edgeEnds db e with
    | none => none
    | some (a, b) =>
      match airport with
      | some ap => if a.props.airport = ap then
          some ⟨a.props.id, b.props.id, e.via, e.distance, e.direction.str, e.requires_hold⟩
        else none
      | none => some ⟨a.props.id, b.props.id, e.via, e.distance, e.direction.str, e.requires_hold⟩)

/-- Result shape of db.py `get_graph_stats`. -/
structure GraphStats where
  total_nodes : Nat
  total_connections : Nat
  nodes_by_type : List (String × Nat)
  deriving DecidableEq, Repr

/-- db.py `get_graph_stats`: count all nodes (with the airport, when
filtered), all relationships whose from-node has the airport, and the
per-label counts with zero counts omitted. -/
def get_graph_stats (db : DB) (airport : Option String) : GraphStats :=
  let nodeMatches : DBNode → Bool := fun n =>
    match airport with
    | none => true
    | some a => n.props.airport = a
  let relMatches : DBEdge → Bool := fun e =>
    match airport with
    | none => true
    | some a =>
      match db.nodes.find? (fun n => n.eid = e.fromEid) with
      | some fr => fr.props.airport = a
      | none => false
  let types : List NodeType :=
    [.runwayEnd, .taxiwayIntersection, .holdShort, .fbo, .terminal, .ramp]
  { total_nodes := (db.nodes.filter nodeMatches).length,
    total_connections := (db.edges.filter relMatches).length,
    nodes_by_type := types.filterMap (fun t =>
      let c := (db.nodes.filter (fun n => nodeMatches n && n.label = t)).length
      if c > 0 then some (t.label, c) else none) }

/-!
## Path finder

`FIND_PATH_QUERY` is
`MATCH path = shortestPath((start)-[:CONNECTS*]-(end))
 WHERE start.id = $start_id AND end.id = $end_id
       AND start.airport = $airport AND end.airport = $airport`.
The undirected relationship pattern `-[:CONNECTS*]-` (length 1 and up)
makes every stored relationship traversable in either direction, and only
the two pattern endpoints are constrained by id/airport.  `shortestPath`
returns a connecting path with the minimum number of relationships (any
one of them when several are tied); with its default configuration Neo4j
raises an error when the two pattern endpoints bind to the same node.  We
embed that specification deterministically: enumerate undirected walks of
length 1, 2, ... from the start node and return the first one reaching the
end node (a minimum-length walk never repeats a node, so it is a genuine
path).  A walk stores its steps in reverse order: each step is the index
of the traversed relationship in `db.edges` paired with the node identity
it arrives at.
-/

/-- Relationship `i` of `db.edges` is traversable from node identity `u` to
node identity `v`, in either direction (the undirected pattern
`-[:CONNECTS*]-`). -/
def edgeStep (db : DB) (i : Nat) (u v : Nat) : Bool :=
  match db.edges.get? i with
  | some e => (e.fromEid = u && e.toEid = v) || (e.toEid = u && e.fromEid = v)
  | none => false

/-- The node identity a walk from `s` with (reversed) step list `l` ends
at. -/
def lastOf (s : Nat) : List (Nat × Nat) → Nat
  | [] => s
  | (_, v) :: _ => v

/-- Validity of a reversed step list for a walk starting at node identity
`s`: each step traverses an existing relationship from the previous node. -/
def validSteps (db : DB) (s : Nat) : List (Nat × Nat) → Bool
  | [] => true
  | (i, v) :: rest => validSteps db s rest && edgeStep db i (lastOf s rest) v

/-- An undirected walk: a start node identity plus the reversed list of
(relationship index, arrival node identity) steps. -/
structure Walk where
  start : Nat
  rsteps : List (Nat × Nat)
  deriving DecidableEq, Repr

/-- The node identity a walk ends at. -/
def Walk.last (w : Walk) : Nat := lastOf w.start w.rsteps

/-- All one-step extensions of a walk: any relationship incident (in either
direction) to its last node. -/
def extendWalk (db : DB) (w : Walk) : List Walk :=
  (List.range db.edges.length).flatMap (fun i =>
    match db.edges.get? i with
    | none => []
    | some e =>
      (if e.fromEid = w.last then [⟨w.start, (i, e.toEid) :: w.rsteps⟩] else []) ++
      (if e.toEid = w.last then [⟨w.start, (i, e.fromEid) :: w.rsteps⟩] else []))

/-- All walks of exactly `k` steps starting at node identity `s`. -/
def walksOfLen (db : DB) (s : Nat) : Nat → List Walk
  | 0 => [⟨s, []⟩]
  | k + 1 => (walksOfLen db s k).flatMap (extendWalk db)

/-- Try walk lengths 1, 2, ..., `k` in order and return a walk of the first
length that reaches `e` (the `shortestPath` minimality). -/
def findWalkUpTo (db : DB) (s e : Nat) : Nat → Option Walk
  | 0 => none
  | k + 1 =>
    match findWalkUpTo db s e k with
    | some w => some w
    | none => (walksOfLen db s (k + 1)).find? (fun w => w.last = e)

/-- A shortest undirected walk between two node identities, if any (a
minimum-length walk is node-repetition free, so searching lengths up to
the node count is exhaustive). -/
def find_path_pair (db : DB) (s e : Nat) : Option Walk :=
  findWalkUpTo db s e db.nodes.length

/-- The record db.py `find_path` builds from the returned row:
`[node IN nodes(path) | node.name]`, `[rel IN relationships(path) | rel.via]`,
`[rel IN relationships(path) | rel.requires_hold]`. -/
structure PathResult where
  node_names : List String
  via_list : List String
  holds : List Bool
  deriving DecidableEq, Repr

/-- Display name of the node with internal identity `eid`. -/
def nodeNameOf (db : DB) (eid : Nat) : String :=
  ((db.nodes.find? (fun n => n.eid = eid)).map (fun n => n.props.name)).getD ""

/-- `via` of relationship `i`. -/
def viaOf (db : DB) (i : Nat) : String :=
  ((db.edges.get? i).map (fun e => e.via)).getD ""

/-- `requires_hold` of relationship `i`. -/
def holdOf (db : DB) (i : Nat) : Bool :=
  ((db.edges.get? i).map (fun e => e.requires_hold)).getD false

/-- Project a walk to the `node_names` / `via_list` / `holds` lists of
`FIND_PATH_QUERY`'s RETURN clause. -/
def renderPath (db : DB) (w : Walk) : PathResult :=
  let steps := w.rsteps.reverse
  { node_names := (w.start :: steps.map Prod.snd).map (nodeNameOf db),
    via_list := steps.map (fun st => viaOf db st.1),
    holds := steps.map (fun st => holdOf db st.1) }

/-- The (start, end) node pairs bound by `FIND_PATH_QUERY`'s MATCH/WHERE:
both ids must match and both endpoints must carry the requested airport
(nothing constrains intermediate nodes or relationships). -/
def matchPairs (db : DB) (airport start_id end_id : String) : List (DBNode × DBNode) :=
  (db.nodes.filter (fun a => a.props.id = start_id && a.props.airport = airport)).flatMap
    (fun a => (db.nodes.filter (fun b => b.props.id = end_id && b.props.airport = airport)).map
      (fun b => (a, b)))

/-- db.py `find_path`.  `.error ()` models the Neo4j exception raised when a
bound pair has both `shortestPath` endpoints on the same node (default
`forbid_shortest_path_common_nodes` behaviour); otherwise the first bound
pair with a connecting walk yields the `PathResult` of a shortest walk
(`result.single()` consumes the first row), and `none` is the Python
`None` returned when no row exists. -/
def find_path (db : DB) (airport start_id end_id : String) :
    Except Unit (Option PathResult) :=
  let pairs := matchPairs db airport start_id end_id
  if pairs.any (fun p => p.1.eid = p.2.eid) then .error ()
  else
    match pairs.findSome? (fun p =>
        (find_path_pair db p.1.eid p.2.eid).map (fun w => renderPath db w)) with
    | some r => .ok (some r)
    | none => .ok none

/-!
## Agent tools (graph_tools.py)

Each `@tool` handler returns a `{"content": [{"type": "text", ...}]}`
payload, with `"is_error": True` on failure; we embed that as a text plus
an error flag.  Optional JSON arguments (absent keys of `args`) are
embedded as `Option` fields set to `none`; enum-constrained string
arguments (`node_type`, `direction`) are embedded by the corresponding
Lean enum, their JSON schemas ruling out any other string.
-/

/-- The observable result of a tool call: the text block and the
`is_error` flag (absent `is_error` means false). -/
structure ToolResult where
  text : String
  is_error : Bool
  deriving DecidableEq, Repr

/-- Arguments of the `create_node` tool. -/
structure NodeArgs where
  node_type : NodeType
  airport : String
  id : String
  name : String
  x : Int
  y : Int
  heading : Option Int := none
  runway_id : Option String := none
  taxiways : Option (List String) := none
  runway : Option String := none
  taxiway : Option String := none
  deriving DecidableEq, Repr

/-- Outcome of `db_create_node(node)` inside the tool's `try`: success
yields the new state and a confirmation text; a raised exception is caught
and reported with `is_error` (the exception text is summarized by the
error's name). -/
def runDbCreateNode (db : DB) (typeText : String) (n : Node) : DB × ToolResult :=
  match create_node db n with
  | .ok (db2, _) =>
      (db2, ⟨"Created " ++ typeText ++ " node: " ++ n.params.name
              ++ " (id: " ++ n.params.id ++ ")", false⟩)
  | .error _ =>
      (db, ⟨"Error creating node: ConstraintError", true⟩)

/-- graph_tools.py `create_node` tool handler: checks the type-specific
required arguments, then builds the dataclass and calls the store. -/
def tool_create_node (db : DB) (a : NodeArgs) : DB × ToolResult :=
  match a.node_type with
  | .runwayEnd =>
    match a.heading, a.runway_id with
    | some h, some rid =>
        runDbCreateNode db "runway_end" (.runwayEnd a.id a.airport a.name a.x a.y h rid)
    | _, _ =>
        (db, ⟨"Error: runway_end requires 'heading' and 'runway_id'", true⟩)
  | .taxiwayIntersection =>
    match a.taxiways with
    | some ts =>
        runDbCreateNode db "taxiway_intersection"
          (.taxiwayIntersection a.id a.airport a.name a.x a.y ts)
    | none =>
        (db, ⟨"Error: taxiway_intersection requires 'taxiways' array", true⟩)
  | .holdShort =>
    match a.runway, a.taxiway with
    | some r, some t =>
        runDbCreateNode db "hold_short" (.holdShort a.id a.airport a.name a.x a.y r t)
    | _, _ =>
        (db, ⟨"Error: hold_short requires 'runway' and 'taxiway'", true⟩)
  | .fbo => runDbCreateNode db "fbo" (.fbo a.id a.airport a.name a.x a.y)
  | .terminal => runDbCreateNode db "terminal" (.terminal a.id a.airport a.name a.x a.y)
  | .ramp => runDbCreateNode db "ramp" (.ramp a.id a.airport a.name a.x a.y)

/-- Arguments of the `create_connection` tool; `requires_hold` and
`bidirectional` are optional (`args.get(..., False)` / `args.get(..., True)`). -/
structure ConnectionArgs where
  from_id : String
  to_id : String
  via : String
  distance : Int
  direction : Direction
  requires_hold : Option Bool := none
  bidirectional : Option Bool := none
  deriving DecidableEq, Repr

/-- graph_tools.py `create_connection` tool handler: creates the forward
relationship, and when `bidirectional` (default true) also the reverse
relationship with the `opposite_directions` direction and identical
via/distance/requires_hold.  The boolean returned by the store layer is
ignored, so the handler reports success whether or not any relationship
was actually matched and created. -/
def tool_create_connection (db : DB) (a : ConnectionArgs) : DB × ToolResult :=
  let requires_hold := a.requires_hold.getD false
  let bidirectional := a.bidirectional.getD true
  let fwd : Conn := ⟨a.from_id, a.to_id, a.via, a.distance, a.direction, requires_hold⟩
  let db1 := (create_connection db fwd).1
  let baseText := "Created connection: " ++ a.from_id ++ " -> " ++ a.to_id ++ " via " ++ a.via
  if bidirectional then
    let rev : Conn := ⟨a.to_id, a.from_id, a.via, a.distance,
                       opposite_directions a.direction, requires_hold⟩
    let db2 := (create_connection db1 rev).1
    (db2, ⟨baseText ++ " (bidirectional)", false⟩)
  else
    (db1, ⟨baseText, false⟩)

/-!
## Structural validator (validation_tools.py, `validate_graph_structure`)

The Python tool renders every finding as an f-string appended to `issues`
or `warnings`.  We embed each finding as a structured value carrying
exactly the data interpolated into the corresponding f-string (`dangling`
covers both endpoint cases of check 6, whose message text is the same).
Check 1 iterates over a Python set (`node_ids - connected_nodes`), i.e.
each orphan id once in an unspecified order; we realize it as the
first-occurrence deduplication of the row order.
-/

/-- One validator finding. -/
inductive Finding
  | orphanNode (id : String) (type : String)
  | oddRunwayEnds (count : Nat)
  | holdShortNotConnected (name : String)
  | underConnectedIntersection (name : String) (count : Nat)
  | unconnectedFboRamp (type : String) (name : String)
  | dangling (id : String)
  | fewNodes (count : Nat)
  | fewConnections (count : Nat)
  deriving DecidableEq, Repr

/-- The `node_types` dict `{n["id"]: n["type"]}`: later rows overwrite, and
`.get(i, "Unknown")` defaults when absent. -/
def typeLookup (rows : List NodeRow) (i : String) : Option String :=
  ((rows.filter (fun r => r.id = i)).getLast?).map (fun r => r.type)

/-- The connections incident to a node id (used by checks 3, 4, 5). -/
def incidentConns (conns : List ConnRow) (i : String) : List ConnRow :=
  conns.filter (fun c => c.from_id = i || c.to_id = i)

/-- The validator's report: the issue and warning lists plus the raw
counts it prints in its header. -/
structure ValidationReport where
  issues : List Finding
  warnings : List Finding
  total_nodes : Nat
  total_connections : Nat
  deriving DecidableEq, Repr

/-- validation_tools.py `validate_graph_structure`: the fixed battery of
checks 1-7 over the airport's node rows, connection rows and stats. -/
def validate_graph_structure (db : DB) (airport : String) : ValidationReport :=
  let nodes := get_all_nodes db (some airport)
  let conns := get_all_connections db (some airport)
  let stats := get_graph_stats db (some airport)
  let connected_nodes : List String := conns.flatMap (fun c => [c.from_id, c.to_id])
  let node_ids : List String := nodes.map (fun r => r.id)
  -- Check 1: orphan nodes (no connections); Python iterates the set
  -- node_ids - connected_nodes (each orphan id exactly once, unspecified
  -- order), realized here as a deduplication of the id list
  let orphans := node_ids.dedup.filter (fun i => !connected_nodes.contains i)
  let issues1 := orphans.map (fun i =>
    Finding.orphanNode i ((typeLookup nodes i).getD "Unknown"))
  -- Check 2: runway ends should come in pairs
  let runway_ends := nodes.filter (fun r => r.type = "RunwayEnd")
  let warnings1 :=
    if runway_ends.length % 2 ≠ 0 then [Finding.oddRunwayEnds runway_ends.length] else []
  -- Check 3: hold short nodes should connect to runway ends
  let hold_shorts := nodes.filter (fun r => r.type = "HoldShort")
  let warnings2 := hold_shorts.filterMap (fun hs =>
    let hs_connections := incidentConns conns hs.id
    let connects_to_runway := hs_connections.any (fun c =>
      typeLookup nodes c.to_id = some "RunwayEnd"
        || typeLookup nodes c.from_id = some "RunwayEnd")
    if !connects_to_runway then some (Finding.holdShortNotConnected hs.name) else none)
  -- Check 4: every taxiway intersection should have at least 2 connections
  let taxiway_intersections := nodes.filter (fun r => r.type = "TaxiwayIntersection")
  let warnings3 := taxiway_intersections.filterMap (fun twy =>
    let twy_connections := incidentConns conns twy.id
    if twy_connections.length < 2 then
      some (Finding.underConnectedIntersection twy.name twy_connections.length)
    else none)
  -- Check 5: FBOs and ramps should be connected
  let fbos_and_ramps := nodes.filter (fun r => r.type = "FBO" || r.type = "Ramp")
  let issues2 := fbos_and_ramps.filterMap (fun loc =>
    if (incidentConns conns loc.id).length = 0 then
      some (Finding.unconnectedFboRamp loc.type loc.name)
    else none)
  -- Check 6: connections referencing non-existent nodes
  let issues3 := conns.flatMap (fun c =>
    (if !node_ids.contains c.from_id then [Finding.dangling c.from_id] else []) ++
    (if !node_ids.contains c.to_id then [Finding.dangling c.to_id] else []))
  -- Check 7: minimum graph size
  let warnings4 :=
    (if stats.total_nodes < 5 then [Finding.fewNodes stats.total_nodes] else []) ++
    (if stats.total_connections < 5 then [Finding.fewConnections stats.total_connections] else [])
  { issues := issues1 ++ issues2 ++ issues3,
    warnings := warnings1 ++ warnings2 ++ warnings3 ++ warnings4,
    total_nodes := stats.total_nodes,
    total_connections := stats.total_connections }

/-!
## Well-formedness

States reachable through the store operations have pairwise-distinct
internal node identities, and every relationship's endpoints are actual
nodes (a Neo4j relationship cannot dangle).
-/

/-- Internal node identities are distinct and every relationship endpoint
resolves to a node. -/
def DB.wellFormed (db : DB) : Prop :=
  (db.nodes.map (fun n => n.eid)).Nodup ∧
  ∀ e ∈ db.edges, (∃ a ∈ db.nodes, a.eid = e.fromEid) ∧ (∃ b ∈ db.nodes, b.eid = e.toEid)

/-- Every relationship stays inside one airport (the data model's "both
must reference existing node ids within the same airport"). -/
def DB.edgesSameAirport (db : DB) : Prop :=
  ∀ e ∈ db.edges, ∀ a ∈ db.nodes, ∀ b ∈ db.nodes,
    a.eid = e.fromEid → b.eid = e.toEid → a.props.airport = b.props.airport

/-!
## Verification

General lemmas about the store operations, then one theorem per claim.
-/

/-- When either endpoint id matches no node, `CREATE_CONNECTION_QUERY`
binds no (a, b) pair: nothing is stored and the Python function returns
`False` (no exception). -/
theorem create_connection_no_match (db : DB) (c : Conn)
    (h : (∀ n ∈ db.nodes, n.props.id ≠ c.from_id) ∨
         (∀ n ∈ db.nodes, n.props.id ≠ c.to_id)) :
    create_connection db c = (db, false) := by
  unfold create_connection
  have hp : (db.nodes.filter (fun a => a.props.id = c.from_id)).flatMap
      (fun a => (db.nodes.filter (fun b => b.props.id = c.to_id)).map
        (fun b => (a, b))) = [] := by
    rcases h with h | h
    · have hf : db.nodes.filter (fun a => a.props.id = c.from_id) = [] := by
        rw [List.filter_eq_nil_iff]
        intro n hn
        simpa using h n hn
      rw [hf]
      rfl
    · have hf : db.nodes.filter (fun b => b.props.id = c.to_id) = [] := by
        rw [List.filter_eq_nil_iff]
        intro n hn
        simpa using h n hn
      rw [hf]
      simp
  rw [hp]
  simp

def c1db : DB :=
  ⟨[⟨.fbo, 0, { id := "A", airport := "KAAA", name := "Alpha", x := 1, y := 2 }⟩], [], 1⟩

/-- C1 counterexample: with only node id "A" in the store, creating a
connection "A" -> "Z" (endpoint "Z" absent) persists nothing, yet the
`create_connection` tool reports success (`is_error` false, a "Created
connection" text): no DanglingReferenceError reaches the caller, so the
failure is silently swallowed, contradicting the claim. -/
theorem C1_counterexample :
    (∀ n ∈ c1db.nodes, n.props.id ≠ "Z") ∧
    tool_create_connection c1db ⟨"A", "Z", "A", 1, Direction.N, none, none⟩ =
      (c1db, ⟨"Created connection: A -> Z via A (bidirectional)", false⟩) := by
  constructor
  · decide
  · rfl

/-- C1 (amended): an edge-creation request with a missing endpoint id
persists no edge -- the store layer returns `False` -- but no error of any
kind is surfaced: the tool handler ignores that boolean and reports
success, for any `requires_hold`/`bidirectional` arguments. -/
theorem C1_dangling_is_silent (db : DB) (c : Conn)
    (h : (∀ n ∈ db.nodes, n.props.id ≠ c.from_id) ∨
         (∀ n ∈ db.nodes, n.props.id ≠ c.to_id)) :
    create_connection db c = (db, false) ∧
    ∀ rh bd : Option Bool,
      (tool_create_connection db
        ⟨c.from_id, c.to_id, c.via, c.distance, c.direction, rh, bd⟩).1 = db ∧
      (tool_create_connection db
        ⟨c.from_id, c.to_id, c.via, c.distance, c.direction, rh, bd⟩).2.is_error = false := by
  have hfwd : ∀ rh : Bool,
      create_connection db ⟨c.from_id, c.to_id, c.via, c.distance, c.direction, rh⟩ =
        (db, false) := fun rh => create_connection_no_match db _ h
  have hrev : ∀ rh : Bool,
      create_connection db
        ⟨c.to_id, c.from_id, c.via, c.distance, opposite_directions c.direction, rh⟩ =
        (db, false) := fun rh => create_connection_no_match db _ (h.symm)
  refine ⟨hfwd c.requires_hold, fun rh bd => ?_⟩
  unfold tool_create_connection
  by_cases hb : bd.getD true <;> simp [hb, hfwd, hrev]

/-- C1 witness: the amended statement at the concrete store `c1db`. -/
theorem C1_witness :
    create_connection c1db ⟨"A", "Z", "A", 1, Direction.N, false⟩ = (c1db, false) ∧
    (tool_create_connection c1db ⟨"A", "Z", "A", 1, Direction.N, none, none⟩).1 = c1db ∧
    (tool_create_connection c1db
      ⟨"A", "Z", "A", 1, Direction.N, none, none⟩).2.is_error = false := by
  have h := C1_dangling_is_silent c1db ⟨"A", "Z", "A", 1, Direction.N, false⟩
    (Or.inr (by decide))
  exact ⟨h.1, (h.2 none none).1, (h.2 none none).2⟩

def c2db : DB :=
  ⟨[⟨.ramp, 0, { id := "X", airport := "KAAA", name := "Ramp X", x := 0, y := 0 }⟩], [], 1⟩

/-- C2 counterexample: id "X" already exists in the store (as a Ramp), yet
creating an FBO with the same id "X" succeeds and stores a second node --
the uniqueness constraints of `SCHEMA_CONSTRAINTS` are per label, not
store-wide, refuting "fails ... regardless of the existing node's type". -/
theorem C2_counterexample :
    (∃ m ∈ c2db.nodes, m.props.id = "X") ∧
    create_node c2db (Node.fbo "X" "KBBB" "FBO X" 1 1) =
      .ok ({ nodes := c2db.nodes ++
               [⟨.fbo, 1, (Node.fbo "X" "KBBB" "FBO X" 1 1).params⟩],
             edges := [], nextEid := 2 },
           (Node.fbo "X" "KBBB" "FBO X" 1 1).params) := by
  constructor
  · exact ⟨_, List.mem_cons_self _ _, rfl⟩
  · rfl

/-- C2 (amended): `create_node` fails with the duplicate-id constraint
error iff a node of the same type already carries the id (whatever its
airport); with a fresh (type, id) the node is persisted unchanged and its
attribute map is echoed back untransformed.  On failure the state is not
touched at all, so the existing node is left unchanged. -/
theorem C2_create_node_spec (db : DB) (n : Node) :
    ((∃ m ∈ db.nodes, m.label = n.node_type ∧ m.props.id = n.params.id) →
      create_node db n = .error .constraintViolation) ∧
    ((∀ m ∈ db.nodes, ¬(m.label = n.node_type ∧ m.props.id = n.params.id)) →
      create_node db n =
        .ok ({ nodes := db.nodes ++ [⟨n.node_type, db.nextEid, n.params⟩],
               edges := db.edges, nextEid := db.nextEid + 1 }, n.params)) := by
  unfold create_node
  constructor
  · rintro ⟨m, hm, h1, h2⟩
    rw [if_pos]
    rw [List.any_eq_true]
    exact ⟨m, hm, by simp [h1, h2]⟩
  · intro h
    rw [if_neg]
    intro hc
    rw [List.any_eq_true] at hc
    obtain ⟨m, hm, hb⟩ := hc
    exact h m hm (by simpa using hb)

/-- C2 witness: both halves of the amended statement at concrete stores. -/
theorem C2_witness :
    create_node c2db (Node.ramp "X" "KZZZ" "R2" 2 2) = .error .constraintViolation ∧
    create_node c2db (Node.ramp "Y" "KAAA" "R3" 3 3) =
      .ok ({ nodes := c2db.nodes ++
               [⟨.ramp, 1, (Node.ramp "Y" "KAAA" "R3" 3 3).params⟩],
             edges := [], nextEid := 2 },
           (Node.ramp "Y" "KAAA" "R3" 3 3).params) :=
  ⟨(C2_create_node_spec c2db (Node.ramp "X" "KZZZ" "R2" 2 2)).1 (by decide),
   (C2_create_node_spec c2db (Node.ramp "Y" "KAAA" "R3" 3 3)).2 (by decide)⟩

/-- When each endpoint id matches exactly one node, the store appends
exactly one relationship between those two nodes. -/
theorem create_connection_unique_match (db : DB) (c : Conn) (na nb : DBNode)
    (hA : db.nodes.filter (fun n => n.props.id = c.from_id) = [na])
    (hB : db.nodes.filter (fun n => n.props.id = c.to_id) = [nb]) :
    create_connection db c =
      ({ db with edges := db.edges ++
          [⟨na.eid, nb.eid, c.via, c.distance, c.direction, c.requires_hold⟩] }, true) := by
  unfold create_connection
  rw [hA, hB]
  rfl

def c4db : DB :=
  ⟨[⟨.fbo, 0, { id := "A", airport := "KAAA", name := "Alpha", x := 1, y := 2 }⟩,
    ⟨.ramp, 1, { id := "B", airport := "KAAA", name := "Bravo", x := 3, y := 4 }⟩], [], 2⟩

/-- C4: a bidirectional connection request between the (unique) nodes
matching `from_id` and `to_id` stores exactly two directed relationships:
forward with the requested direction, and reverse with the exact compass
opposite (per the `opposite_directions` table, which realizes N-S, NE-SW,
E-W, SE-NW), both carrying identical via, distance and requires_hold; no
node is touched. -/
theorem C4_bidirectional_two_edges (db : DB) (a : ConnectionArgs) (na nb : DBNode)
    (hbd : a.bidirectional = some true)
    (hA : db.nodes.filter (fun n => n.props.id = a.from_id) = [na])
    (hB : db.nodes.filter (fun n => n.props.id = a.to_id) = [nb]) :
    ((tool_create_connection db a).1.nodes = db.nodes ∧
     (tool_create_connection db a).1.edges = db.edges ++
       [⟨na.eid, nb.eid, a.via, a.distance, a.direction, a.requires_hold.getD false⟩,
        ⟨nb.eid, na.eid, a.via, a.distance, opposite_directions a.direction,
         a.requires_hold.getD false⟩]) ∧
    (opposite_directions .N = .S ∧ opposite_directions .S = .N ∧
     opposite_directions .NE = .SW ∧ opposite_directions .SW = .NE ∧
     opposite_directions .E = .W ∧ opposite_directions .W = .E ∧
     opposite_directions .SE = .NW ∧ opposite_directions .NW = .SE) := by
  refine ⟨?_, by decide⟩
  unfold tool_create_connection
  rw [hbd]
  simp only [Option.getD_some, if_true]
  rw [create_connection_unique_match db _ na nb hA hB]
  rw [create_connection_unique_match _ _ nb na hB hA]
  simp

/-- C4 witness: the statement at a concrete two-node store. -/
theorem C4_witness :
    ((tool_create_connection c4db
        ⟨"A", "B", "T", 3, Direction.NE, some true, some true⟩).1.nodes = c4db.nodes ∧
     (tool_create_connection c4db
        ⟨"A", "B", "T", 3, Direction.NE, some true, some true⟩).1.edges =
       c4db.edges ++
         [⟨0, 1, "T", 3, Direction.NE, true⟩,
          ⟨1, 0, "T", 3, opposite_directions Direction.NE, true⟩]) ∧
    (opposite_directions .N = .S ∧ opposite_directions .S = .N ∧
     opposite_directions .NE = .SW ∧ opposite_directions .SW = .NE ∧
     opposite_directions .E = .W ∧ opposite_directions .W = .E ∧
     opposite_directions .SE = .NW ∧ opposite_directions .NW = .SE) :=
  C4_bidirectional_two_edges c4db
    ⟨"A", "B", "T", 3, Direction.NE, some true, some true⟩
    ⟨.fbo, 0, { id := "A", airport := "KAAA", name := "Alpha", x := 1, y := 2 }⟩
    ⟨.ramp, 1, { id := "B", airport := "KAAA", name := "Bravo", x := 3, y := 4 }⟩
    rfl (by decide) (by decide)

/-- C10: when the `bidirectional` argument is omitted it defaults to true,
so the tool stores the forward and the reverse relationship; only an
explicit `bidirectional = false` stores the single forward relationship. -/
theorem C10_bidirectional_defaults_true (db : DB) (a : ConnectionArgs) (na nb : DBNode)
    (hA : db.nodes.filter (fun n => n.props.id = a.from_id) = [na])
    (hB : db.nodes.filter (fun n => n.props.id = a.to_id) = [nb]) :
    (a.bidirectional = none →
      (tool_create_connection db a).1.edges = db.edges ++
        [⟨na.eid, nb.eid, a.via, a.distance, a.direction, a.requires_hold.getD false⟩,
         ⟨nb.eid, na.eid, a.via, a.distance, opposite_directions a.direction,
          a.requires_hold.getD false⟩]) ∧
    (a.bidirectional = some false →
      (tool_create_connection db a).1.edges = db.edges ++
        [⟨na.eid, nb.eid, a.via, a.distance, a.direction, a.requires_hold.getD false⟩]) := by
  constructor
  · intro hbd
    unfold tool_create_connection
    rw [hbd]
    simp only [Option.getD_none, if_true]
    rw [create_connection_unique_match db _ na nb hA hB]
    rw [create_connection_unique_match _ _ nb na hB hA]
    simp
  · intro hbd
    unfold tool_create_connection
    rw [hbd]
    simp only [Option.getD_some, Bool.false_eq_true, if_false]
    rw [create_connection_unique_match db _ na nb hA hB]

/-- C10 witness: both halves at a concrete two-node store. -/
theorem C10_witness :
    (tool_create_connection c4db
        ⟨"A", "B", "T", 3, Direction.E, none, none⟩).1.edges =
      c4db.edges ++
        [⟨0, 1, "T", 3, Direction.E, false⟩,
         ⟨1, 0, "T", 3, opposite_directions Direction.E, false⟩] ∧
    (tool_create_connection c4db
        ⟨"A", "B", "T", 3, Direction.E, none, some false⟩).1.edges =
      c4db.edges ++ [⟨0, 1, "T", 3, Direction.E, false⟩] :=
  ⟨(C10_bidirectional_defaults_true c4db ⟨"A", "B", "T", 3, Direction.E, none, none⟩
      ⟨.fbo, 0, { id := "A", airport := "KAAA", name := "Alpha", x := 1, y := 2 }⟩
      ⟨.ramp, 1, { id := "B", airport := "KAAA", name := "Bravo", x := 3, y := 4 }⟩
      (by decide) (by decide)).1 rfl,
   (C10_bidirectional_defaults_true c4db ⟨"A", "B", "T", 3, Direction.E, none, some false⟩
      ⟨.fbo, 0, { id := "A", airport := "KAAA", name := "Alpha", x := 1, y := 2 }⟩
      ⟨.ramp, 1, { id := "B", airport := "KAAA", name := "Bravo", x := 3, y := 4 }⟩
      (by decide) (by decide)).2 rfl⟩

/-- C9: a `create_node` call omitting a type-specific required argument
(a runway_end without heading or runway_id, a taxiway_intersection without
taxiways, a hold_short without runway or taxiway) is answered by the
matching "Error: ..." text with `is_error` set, and the store is left
untouched: the missing field is never defaulted. -/
theorem C9_missing_required_field_rejected (db : DB) (a : NodeArgs) :
    (a.node_type = .runwayEnd → a.heading = none ∨ a.runway_id = none →
      tool_create_node db a =
        (db, ⟨"Error: runway_end requires 'heading' and 'runway_id'", true⟩)) ∧
    (a.node_type = .taxiwayIntersection → a.taxiways = none →
      tool_create_node db a =
        (db, ⟨"Error: taxiway_intersection requires 'taxiways' array", true⟩)) ∧
    (a.node_type = .holdShort → a.runway = none ∨ a.taxiway = none →
      tool_create_node db a =
        (db, ⟨"Error: hold_short requires 'runway' and 'taxiway'", true⟩)) := by
  refine ⟨fun ht hm => ?_, fun ht hm => ?_, fun ht hm => ?_⟩
  · unfold tool_create_node
    rw [ht]
    rcases hm with hm | hm
    · rw [hm]
    · rw [hm]
      cases a.heading <;> rfl
  · unfold tool_create_node
    rw [ht, hm]
  · unfold tool_create_node
    rw [ht]
    rcases hm with hm | hm
    · rw [hm]
    · rw [hm]
      cases a.runway <;> rfl

/-- C9 witness: a runway_end request without a heading at a concrete
store. -/
theorem C9_witness :
    tool_create_node c4db
      { node_type := .runwayEnd, airport := "KAAA", id := "r27", name := "27",
        x := 5, y := 6, runway_id := some "9_27" } =
      (c4db, ⟨"Error: runway_end requires 'heading' and 'runway_id'", true⟩) :=
  (C9_missing_required_field_rejected c4db
    { node_type := .runwayEnd, airport := "KAAA", id := "r27", name := "27",
      x := 5, y := 6, runway_id := some "9_27" }).1 rfl (Or.inl rfl)

/-- The airport a relationship belongs to is the airport of its from-node
(the notion `GET_ALL_CONNECTIONS_QUERY` and the stats query use to filter
relationships by airport). -/
def edgeOfAirport (db : DB) (e : DBEdge) (a : String) : Prop :=
  ∃ fr ∈ db.nodes, fr.eid = e.fromEid ∧ fr.props.airport = a

/-- C7: on a store whose relationships stay inside one airport,
`clear_database` with an airport filter keeps exactly the nodes of other
airports and exactly the relationships of other airports (the cleared
airport's nodes disappear together with their incident relationships),
and `clear_database` without a filter empties the store. -/
theorem C7_clear_scoped (db : DB) (a : String)
    (hwf : db.wellFormed) (hsa : db.edgesSameAirport) :
    (∀ n, n ∈ (clear_database db (some a)).nodes ↔
      n ∈ db.nodes ∧ n.props.airport ≠ a) ∧
    (∀ e, e ∈ (clear_database db (some a)).edges ↔
      e ∈ db.edges ∧ ¬edgeOfAirport db e a) ∧
    (clear_database db none).nodes = [] ∧
    (clear_database db none).edges = [] := by
  obtain ⟨-, hends⟩ := hwf
  refine ⟨fun n => ?_, fun e => ?_, ?_, ?_⟩
  · unfold clear_database
    rw [List.mem_filter]
    simp
  · unfold clear_database
    rw [List.mem_filter]
    constructor
    · rintro ⟨he, hb⟩
      refine ⟨he, ?_⟩
      rintro ⟨fr, hfr, hfre, hfra⟩
      rw [Bool.not_eq_true', List.any_eq_false] at hb
      exact hb fr hfr (by simp [hfra, hfre])
    · rintro ⟨he, hno⟩
      refine ⟨he, ?_⟩
      rw [Bool.not_eq_true', List.any_eq_false]
      intro m hm
      simp only [Bool.and_eq_true, Bool.or_eq_true, decide_eq_true_eq, not_and, not_or]
      intro hma
      obtain ⟨⟨fr, hfr, hfre⟩, ⟨bt, hbt, hbte⟩⟩ := hends e he
      constructor
      · intro hmf
        exact hno ⟨m, hm, hmf, hma⟩
      · intro hmt
        have hfa : fr.props.airport = m.props.airport := hsa e he fr hfr m hm hfre hmt
        exact hno ⟨fr, hfr, hfre, hfa.trans hma⟩
  · unfold clear_database
    simp
  · unfold clear_database
    rw [List.filter_eq_nil_iff]
    intro e he
    obtain ⟨⟨fr, hfr, hfre⟩, -⟩ := hends e he
    simp only [Bool.not_eq_true', Bool.not_eq_false]
    rw [List.any_eq_true]
    exact ⟨fr, hfr, by simp [hfre]⟩

def c7db : DB :=
  ⟨[⟨.fbo, 0, { id := "A1", airport := "KAAA", name := "A One", x := 0, y := 0 }⟩,
    ⟨.ramp, 1, { id := "A2", airport := "KAAA", name := "A Two", x := 1, y := 1 }⟩,
    ⟨.terminal, 2, { id := "B1", airport := "KBBB", name := "B One", x := 2, y := 2 }⟩,
    ⟨.fbo, 3, { id := "B2", airport := "KBBB", name := "B Two", x := 3, y := 3 }⟩],
   [⟨0, 1, "A", 1, .N, false⟩, ⟨2, 3, "B", 2, .E, true⟩], 4⟩

/-- C7 witness: clearing airport KAAA from a two-airport store keeps
KBBB's node and relationship and drops KAAA's; clearing with no filter
empties the store. -/
theorem C7_witness :
    (⟨.terminal, 2, { id := "B1", airport := "KBBB", name := "B One", x := 2, y := 2 }⟩ : DBNode) ∈
      (clear_database c7db (some "KAAA")).nodes ∧
    (⟨.fbo, 0, { id := "A1", airport := "KAAA", name := "A One", x := 0, y := 0 }⟩ : DBNode) ∉
      (clear_database c7db (some "KAAA")).nodes ∧
    (⟨2, 3, "B", 2, .E, true⟩ : DBEdge) ∈ (clear_database c7db (some "KAAA")).edges ∧
    (⟨0, 1, "A", 1, .N, false⟩ : DBEdge) ∉ (clear_database c7db (some "KAAA")).edges ∧
    (clear_database c7db none).nodes = [] ∧
    (clear_database c7db none).edges = [] := by
  have h := C7_clear_scoped c7db "KAAA" (by constructor <;> decide)
    (by unfold DB.edgesSameAirport; decide)
  refine ⟨(h.1 _).mpr (by decide), fun hc => ?_,
          (h.2.1 _).mpr ⟨by decide, by unfold edgeOfAirport; decide⟩,
          fun hc => ?_, h.2.2.1, h.2.2.2⟩
  · exact absurd ((h.1 _).mp hc).2 (by decide)
  · exact ((h.2.1 _).mp hc).2 (by unfold edgeOfAirport; decide)

/-- Any member of `extendWalk db w'` is `w'` with one extra valid step. -/
theorem extendWalk_sound {db : DB} {w w' : Walk} (h : w ∈ extendWalk db w') :
    ∃ i v, w = ⟨w'.start, (i, v) :: w'.rsteps⟩ ∧ edgeStep db i w'.last v = true := by
  unfold extendWalk at h
  rw [List.mem_flatMap] at h
  obtain ⟨i, -, hw⟩ := h
  cases he : db.edges.get? i with
  | none => rw [he] at hw; simp at hw
  | some e =>
    rw [he] at hw
    rw [List.mem_append] at hw
    refine ⟨i, ?_⟩
    rcases hw with hw | hw
    · by_cases hc : e.fromEid = w'.last
      · rw [if_pos hc] at hw
        rw [List.mem_singleton] at hw
        refine ⟨e.toEid, hw, ?_⟩
        unfold edgeStep
        rw [he]
        simp [hc]
      · rw [if_neg hc] at hw
        simp at hw
    · by_cases hc : e.toEid = w'.last
      · rw [if_pos hc] at hw
        rw [List.mem_singleton] at hw
        refine ⟨e.fromEid, hw, ?_⟩
        unfold edgeStep
        rw [he]
        simp [hc]
      · rw [if_neg hc] at hw
        simp at hw

/-- Every valid one-step extension of `w'` is produced by `extendWalk`. -/
theorem extendWalk_complete {db : DB} (w' : Walk) {i v : Nat}
    (h : edgeStep db i w'.last v = true) :
    (⟨w'.start, (i, v) :: w'.rsteps⟩ : Walk) ∈ extendWalk db w' := by
  unfold edgeStep at h
  cases he : db.edges.get? i with
  | none => rw [he] at h; simp at h
  | some e =>
    rw [he] at h
    have hi : i < db.edges.length := by
      obtain ⟨h', -⟩ := List.get?_eq_some.mp he
      exact h'
    unfold extendWalk
    rw [List.mem_flatMap]
    refine ⟨i, List.mem_range.mpr hi, ?_⟩
    rw [he]
    rw [List.mem_append]
    simp only [Bool.or_eq_true, Bool.and_eq_true, decide_eq_true_eq] at h
    rcases h with ⟨h1, h2⟩ | ⟨h1, h2⟩
    · left
      rw [if_pos h1, h2]
      exact List.mem_singleton.mpr rfl
    · right
      rw [if_pos h1, h2]
      exact List.mem_singleton.mpr rfl

/-- Soundness of the stratified enumeration: level `k` holds only walks of
`k` valid steps starting at `s`. -/
theorem walksOfLen_sound (db : DB) (s : Nat) :
    ∀ (k : Nat) (w : Walk), w ∈ walksOfLen db s k →
      w.start = s ∧ w.rsteps.length = k ∧ validSteps db s w.rsteps = true := by
  intro k
  induction k with
  | zero =>
    intro w h
    rw [walksOfLen, List.mem_singleton] at h
    subst h
    exact ⟨rfl, rfl, rfl⟩
  | succ k ih =>
    intro w h
    rw [walksOfLen, List.mem_flatMap] at h
    obtain ⟨w', hw', hw⟩ := h
    obtain ⟨hs, hl, hv⟩ := ih w' hw'
    obtain ⟨i, v, rfl, hstep⟩ := extendWalk_sound hw
    refine ⟨hs, by simp [hl], ?_⟩
    rw [validSteps, Bool.and_eq_true]
    refine ⟨hv, ?_⟩
    rw [← hs]
    exact hstep

/-- Completeness of the stratified enumeration: every valid step list of
length `k` from `s` appears at level `k`. -/
theorem walksOfLen_complete (db : DB) (s : Nat) :
    ∀ (l : List (Nat × Nat)), validSteps db s l = true →
      (⟨s, l⟩ : Walk) ∈ walksOfLen db s l.length := by
  intro l
  induction l with
  | nil =>
    intro _
    rw [List.length_nil, walksOfLen]
    exact List.mem_singleton.mpr rfl
  | cons st rest ih =>
    rcases st with ⟨i, v⟩
    intro h
    rw [validSteps, Bool.and_eq_true] at h
    obtain ⟨h1, h2⟩ := h
    rw [List.length_cons, walksOfLen, List.mem_flatMap]
    exact ⟨⟨s, rest⟩, ih h1, extendWalk_complete ⟨s, rest⟩ h2⟩

/-- A failed bounded search refutes every intermediate length. -/
theorem findWalkUpTo_none (db : DB) (s e : Nat) :
    ∀ (k j : Nat), findWalkUpTo db s e k = none → 1 ≤ j → j ≤ k →
      ∀ w ∈ walksOfLen db s j, w.last ≠ e := by
  intro k
  induction k with
  | zero =>
    intro j _ h1 h2 w _
    omega
  | succ k ih =>
    intro j h h1 h2 w hw
    rw [findWalkUpTo] at h
    cases hk : findWalkUpTo db s e k with
    | some w' => rw [hk] at h; simp at h
    | none =>
      rw [hk] at h
      rcases Nat.lt_or_ge j (k + 1) with hj | hj
      · exact ih j hk h1 (by omega) w hw
      · have hj' : j = k + 1 := by omega
        subst hj'
        intro hlast
        have := List.find?_eq_none.mp h w hw
        simp only [decide_eq_true_eq] at this
        exact this hlast

/-- A successful bounded search returns a walk found at the first level
that reaches `e`. -/
theorem findWalkUpTo_some (db : DB) (s e : Nat) :
    ∀ (k : Nat) (w : Walk), findWalkUpTo db s e k = some w →
      ∃ m, 1 ≤ m ∧ m ≤ k ∧ w ∈ walksOfLen db s m ∧ w.last = e ∧
        findWalkUpTo db s e (m - 1) = none := by
  intro k
  induction k with
  | zero =>
    intro w h
    rw [findWalkUpTo] at h
    exact absurd h (by simp)
  | succ k ih =>
    intro w h
    rw [findWalkUpTo] at h
    cases hk : findWalkUpTo db s e k with
    | some w' =>
      rw [hk] at h
      rw [Option.some_inj] at h
      subst h
      obtain ⟨m, h1, h2, h3, h4, h5⟩ := ih w' hk
      exact ⟨m, h1, by omega, h3, h4, h5⟩
    | none =>
      rw [hk] at h
      refine ⟨k + 1, by omega, Nat.le_refl _, List.mem_of_find?_eq_some h, ?_, ?_⟩
      · have := List.find?_some h
        simpa using this
      · simpa using hk

/-- Decomposition of a successful `find_path`: the result renders a
shortest valid walk of some bound (start, end) pair, and the two pattern
endpoints of every bound pair are distinct nodes. -/
theorem find_path_ok_some (db : DB) (ap s e : String) (r : PathResult)
    (h : find_path db ap s e = .ok (some r)) :
    ∃ p ∈ matchPairs db ap s e, p.1.eid ≠ p.2.eid ∧
      ∃ w, find_path_pair db p.1.eid p.2.eid = some w ∧ r = renderPath db w := by
  unfold find_path at h
  by_cases hg : (matchPairs db ap s e).any (fun p => p.1.eid = p.2.eid) = true
  · rw [if_pos hg] at h
    simp at h
  · rw [if_neg hg] at h
    cases hf : (matchPairs db ap s e).findSome? (fun p =>
        (find_path_pair db p.1.eid p.2.eid).map (fun w => renderPath db w)) with
    | none => rw [hf] at h; simp at h
    | some r' =>
      rw [hf] at h
      have hr : r' = r := by
        simpa using h
      subst hr
      obtain ⟨p, hp, hpw⟩ := List.exists_of_findSome?_eq_some hf
      cases hw : find_path_pair db p.1.eid p.2.eid with
      | none => rw [hw] at hpw; simp at hpw
      | some w =>
        rw [hw] at hpw
        rw [Option.map_eq_some'] at hpw
        obtain ⟨w', hw', hrw⟩ := hpw
        rw [Option.some_inj] at hw'
        subst hw'
        refine ⟨p, hp, ?_, w, hw, hrw.symm⟩
        rw [Bool.not_eq_true, List.any_eq_false] at hg
        have := hg p hp
        simpa using this

def c3db : DB :=
  ⟨[⟨.ramp, 0, { id := "a", airport := "AAA", name := "A", x := 0, y := 0 }⟩,
    ⟨.terminal, 1, { id := "m", airport := "BBB", name := "M", x := 1, y := 1 }⟩,
    ⟨.fbo, 2, { id := "b", airport := "AAA", name := "B", x := 2, y := 2 }⟩],
   [⟨0, 1, "t1", 1, .N, false⟩, ⟨1, 2, "t2", 1, .N, false⟩], 3⟩

/-- C3 counterexample: in a store where the only chain between airport
AAA's nodes "a" and "b" runs through node "M" of airport BBB, `find_path`
for airport AAA happily returns the path through "M": `FIND_PATH_QUERY`
constrains only the two endpoints by airport, so the search does NOT use
only nodes/edges tagged with the requested airport, refuting that part of
the claim. -/
theorem C3_counterexample :
    find_path c3db "AAA" "a" "b" =
      .ok (some ⟨["A", "M", "B"], ["t1", "t2"], [false, false]⟩) ∧
    (∀ n ∈ c3db.nodes, n.props.name = "M" → n.props.airport = "BBB" ∧
      n.props.airport ≠ "AAA") := by
  exact ⟨rfl, by decide⟩

/-- C3 (amended): `find_path` treats every stored relationship as
traversable in both directions (`edgeStep` is symmetric in its node
arguments); only the start and end nodes are required to match the
requested airport (they come from `matchPairs`, which checks the airport
of the two pattern endpoints alone -- intermediate nodes and relationships
are not filtered); and a returned path renders a valid connecting walk
with the minimum possible number of edges among all connecting walks of
its endpoint pair. -/
theorem C3_shortest_undirected (db : DB) (ap s e : String) (r : PathResult)
    (h : find_path db ap s e = .ok (some r)) :
    (∀ i u v, edgeStep db i u v = edgeStep db i v u) ∧
    ∃ p ∈ matchPairs db ap s e, ∃ w : Walk,
      w.start = p.1.eid ∧ validSteps db p.1.eid w.rsteps = true ∧
      w.last = p.2.eid ∧ 1 ≤ w.rsteps.length ∧ r = renderPath db w ∧
      ∀ l : List (Nat × Nat), validSteps db p.1.eid l = true →
        lastOf p.1.eid l = p.2.eid → w.rsteps.length ≤ l.length := by
  constructor
  · intro i u v
    unfold edgeStep
    cases db.edges.get? i with
    | none => rfl
    | some ed =>
      simp only [Bool.or_comm, Bool.and_comm]
  · obtain ⟨p, hp, hne, w, hw, hr⟩ := find_path_ok_some db ap s e r h
    obtain ⟨m, hm1, -, hmem, hlast, hnone⟩ :=
      findWalkUpTo_some db p.1.eid p.2.eid _ w hw
    obtain ⟨hs, hlen, hvalid⟩ := walksOfLen_sound db p.1.eid m w hmem
    refine ⟨p, hp, w, hs, hvalid, hlast, by omega, hr, ?_⟩
    intro l hl hle
    by_contra hlt
    push_neg at hlt
    rw [hlen] at hlt
    rcases Nat.eq_zero_or_pos l.length with h0 | h0
    · rw [List.length_eq_zero.mp h0] at hle
      exact hne hle
    · have hmem' := walksOfLen_complete db p.1.eid l hl
      have := findWalkUpTo_none db p.1.eid p.2.eid (m - 1) l.length hnone h0
        (by omega) ⟨p.1.eid, l⟩ hmem'
      exact this hle

/-- C3 witness: the amended statement instantiated at `c3db` (where the
returned shortest path happens to cross another airport's node). -/
theorem C3_witness :
    (∀ i u v, edgeStep c3db i u v = edgeStep c3db i v u) ∧
    ∃ p ∈ matchPairs c3db "AAA" "a" "b", ∃ w : Walk,
      w.start = p.1.eid ∧ validSteps c3db p.1.eid w.rsteps = true ∧
      w.last = p.2.eid ∧ 1 ≤ w.rsteps.length ∧
      (⟨["A", "M", "B"], ["t1", "t2"], [false, false]⟩ : PathResult) =
        renderPath c3db w ∧
      ∀ l : List (Nat × Nat), validSteps c3db p.1.eid l = true →
        lastOf p.1.eid l = p.2.eid → w.rsteps.length ≤ l.length :=
  C3_shortest_undirected c3db "AAA" "a" "b"
    ⟨["A", "M", "B"], ["t1", "t2"], [false, false]⟩ rfl

/-- C6: whenever no bound (start, end) pair is connected by any valid walk
-- which covers a missing start or end id, ids whose nodes carry a
different airport than requested (`matchPairs` is then empty), and two
existing distinct nodes in disjoint components -- `find_path` returns the
explicit no-path value `.ok none`: no error is raised. -/
theorem C6_no_path_returns_none (db : DB) (ap s e : String)
    (h : ∀ p ∈ matchPairs db ap s e, ∀ l : List (Nat × Nat),
      validSteps db p.1.eid l = true → lastOf p.1.eid l ≠ p.2.eid) :
    find_path db ap s e = .ok none := by
  unfold find_path
  have hg : (matchPairs db ap s e).any (fun p => p.1.eid = p.2.eid) = false := by
    rw [List.any_eq_false]
    intro p hp
    simp only [decide_eq_true_eq]
    exact h p hp [] rfl
  rw [if_neg (by simp [hg])]
  have hf : (matchPairs db ap s e).findSome? (fun p =>
      (find_path_pair db p.1.eid p.2.eid).map (fun w => renderPath db w)) = none := by
    rw [List.findSome?_eq_none_iff]
    intro p hp
    cases hw : find_path_pair db p.1.eid p.2.eid with
    | none => rfl
    | some w =>
      exfalso
      obtain ⟨m, -, -, hmem, hlast, -⟩ :=
        findWalkUpTo_some db p.1.eid p.2.eid _ w hw
      obtain ⟨hs, -, hvalid⟩ := walksOfLen_sound db p.1.eid m w hmem
      apply h p hp w.rsteps hvalid
      rw [← hs]
      exact hlast
  rw [hf]

def c6db : DB :=
  ⟨[⟨.fbo, 0, { id := "A", airport := "KTST", name := "Alpha", x := 0, y := 0 }⟩,
    ⟨.ramp, 1, { id := "B", airport := "KTST", name := "Bravo", x := 1, y := 1 }⟩], [], 2⟩

/-- C6 witness: two existing, distinct, edge-less nodes of the same
airport (disjoint components): `find_path` returns `.ok none`. -/
theorem C6_witness : find_path c6db "KTST" "A" "B" = .ok none := by
  apply C6_no_path_returns_none
  intro p hp l hl
  have hpairs : matchPairs c6db "KTST" "A" "B" =
      [(⟨.fbo, 0, { id := "A", airport := "KTST", name := "Alpha", x := 0, y := 0 }⟩,
        ⟨.ramp, 1, { id := "B", airport := "KTST", name := "Bravo", x := 1, y := 1 }⟩)] := rfl
  rw [hpairs, List.mem_singleton] at hp
  subst hp
  cases l with
  | nil => decide
  | cons st rest =>
    rcases st with ⟨i, v⟩
    rw [validSteps, Bool.and_eq_true] at hl
    have : edgeStep c6db i (lastOf 0 rest) v = false := by
      unfold edgeStep
      cases i <;> rfl
    rw [this] at hl
    exact absurd hl.2 (by simp)

def c8db : DB :=
  ⟨[⟨.runwayEnd, 0,
      { id := "n1", airport := "KTST", name := "North", x := 0, y := 0,
        heading := some 360, runway_id := some "18_36" }⟩,
    ⟨.ramp, 1, { id := "n2", airport := "KTST", name := "South", x := 1, y := 1 }⟩],
   [⟨0, 1, "A", 2, .S, true⟩], 2⟩

/-- C8: every found path consists of the ordered node display names, the
ordered via labels and the ordered requires_hold flags of the traversed
relationships, with exactly one more node name than via labels and as many
hold flags as via labels; and for the concrete store `c8db`, whose two
nodes are joined by a single relationship (via "A", requires_hold true),
the result is exactly two node names, one via label and one hold flag
equal to that relationship's requires_hold. -/
theorem C8_path_result_shape :
    (∀ (db : DB) (ap s e : String) (r : PathResult),
      find_path db ap s e = .ok (some r) →
        r.node_names.length = r.via_list.length + 1 ∧
        r.holds.length = r.via_list.length) ∧
    find_path c8db "KTST" "n1" "n2" =
      .ok (some ⟨["North", "South"], ["A"], [true]⟩) ∧
    (∀ ed ∈ c8db.edges, ed.requires_hold = true) := by
  refine ⟨?_, rfl, by decide⟩
  intro db ap s e r h
  obtain ⟨p, -, -, w, -, hr⟩ := find_path_ok_some db ap s e r h
  subst hr
  simp [renderPath]

/-- C8 witness: the length law applied at the concrete single-edge
store. -/
theorem C8_witness :
    (["North", "South"] : List String).length = (["A"] : List String).length + 1 ∧
    ([true] : List Bool).length = (["A"] : List String).length :=
  C8_path_result_shape.1 c8db "KTST" "n1" "n2" ⟨["North", "South"], ["A"], [true]⟩ rfl


theorem mem_if_singleton {α : Type} {c : Prop} [Decidable c] {a x : α} :
    (a ∈ if c then [x] else []) ↔ c ∧ a = x := by
  split_ifs with h <;> simp [h]

theorem contains_eq_false {l : List String} {a : String} :
    l.contains a = false ↔ a ∉ l := by
  simp

theorem not_mem_connected {conns : List ConnRow} {i : String}
    (h : ¬∃ c ∈ conns, i = c.from_id ∨ i = c.to_id) :
    ∀ c ∈ conns, c.from_id ≠ i ∧ c.to_id ≠ i := by
  intro c hc
  exact ⟨fun he => h ⟨c, hc, Or.inl he.symm⟩, fun he => h ⟨c, hc, Or.inr he.symm⟩⟩

theorem connected_not_mem {conns : List ConnRow} {i : String}
    (h : ∀ c ∈ conns, c.from_id ≠ i ∧ c.to_id ≠ i) :
    ¬∃ c ∈ conns, i = c.from_id ∨ i = c.to_id := by
  rintro ⟨c, hc, he | he⟩
  · exact (h c hc).1 he.symm
  · exact (h c hc).2 he.symm

theorem C5aux_issues (db : DB) (ap : String) (f : Finding) :
    f ∈ (validate_graph_structure db ap).issues ↔
      ((∃ i t, f = .orphanNode i t ∧ (∃ r ∈ get_all_nodes db (some ap), r.id = i) ∧
          (∀ c ∈ get_all_connections db (some ap), c.from_id ≠ i ∧ c.to_id ≠ i) ∧
          t = (typeLookup (get_all_nodes db (some ap)) i).getD "Unknown") ∨
       (∃ ty nm, f = .unconnectedFboRamp ty nm ∧
          ∃ r ∈ get_all_nodes db (some ap), (r.type = "FBO" ∨ r.type = "Ramp") ∧
            ty = r.type ∧ nm = r.name ∧
            incidentConns (get_all_connections db (some ap)) r.id = []) ∨
       (∃ i, f = .dangling i ∧ (∀ r ∈ get_all_nodes db (some ap), r.id ≠ i) ∧
          ∃ c ∈ get_all_connections db (some ap), c.from_id = i ∨ c.to_id = i)) := by
  unfold validate_graph_structure
  simp only [List.mem_append, List.mem_map, List.mem_filter, List.mem_filterMap,
    List.mem_flatMap, List.mem_dedup, mem_if_singleton, Option.ite_none_right_eq_some,
    contains_eq_false, Bool.not_eq_true', List.length_eq_zero,
    Option.some_inj, Bool.or_eq_true, decide_eq_true_eq, List.mem_cons,
    List.not_mem_nil, or_false, List.any_eq_false, List.mem_singleton]
  constructor
  · rintro ((⟨i, ⟨hmem, hnc⟩, rfl⟩ | ⟨r, ⟨hr, hty⟩, hcond, heq⟩) | ⟨c, hc, hf | hf⟩)
    · exact Or.inl ⟨i, _, rfl, hmem, not_mem_connected hnc, rfl⟩
    · exact Or.inr (Or.inl ⟨r.type, r.name, heq.symm, r, hr, hty, rfl, rfl, hcond⟩)
    · exact Or.inr (Or.inr ⟨c.from_id, hf.2, fun r hr he => hf.1 ⟨r, hr, he⟩,
        c, hc, Or.inl rfl⟩)
    · exact Or.inr (Or.inr ⟨c.to_id, hf.2, fun r hr he => hf.1 ⟨r, hr, he⟩,
        c, hc, Or.inr rfl⟩)
  · rintro (⟨i, t, rfl, hmem, hnc, rfl⟩ |
            ⟨ty, nm, rfl, r, hr, hty, rfl, rfl, hcond⟩ |
            ⟨i, rfl, hnid, c, hc, he | he⟩)
    · exact Or.inl (Or.inl ⟨i, ⟨hmem, connected_not_mem hnc⟩, rfl⟩)
    · exact Or.inl (Or.inr ⟨r, ⟨hr, hty⟩, hcond, rfl⟩)
    · subst he
      exact Or.inr ⟨c, hc, Or.inl ⟨fun ⟨r, hr, he⟩ => hnid r hr he, rfl⟩⟩
    · subst he
      exact Or.inr ⟨c, hc, Or.inr ⟨fun ⟨r, hr, he⟩ => hnid r hr he, rfl⟩⟩

theorem C5aux_warnings (db : DB) (ap : String) (f : Finding) :
    f ∈ (validate_graph_structure db ap).warnings ↔
      ((∃ c, f = .oddRunwayEnds c ∧
          c = ((get_all_nodes db (some ap)).filter (fun r => r.type = "RunwayEnd")).length ∧
          c % 2 ≠ 0) ∨
       (∃ nm, f = .holdShortNotConnected nm ∧
          ∃ r ∈ get_all_nodes db (some ap), r.type = "HoldShort" ∧ nm = r.name ∧
            ∀ c ∈ incidentConns (get_all_connections db (some ap)) r.id,
              typeLookup (get_all_nodes db (some ap)) c.to_id ≠ some "RunwayEnd" ∧
              typeLookup (get_all_nodes db (some ap)) c.from_id ≠ some "RunwayEnd") ∨
       (∃ nm cnt, f = .underConnectedIntersection nm cnt ∧
          ∃ r ∈ get_all_nodes db (some ap), r.type = "TaxiwayIntersection" ∧ nm = r.name ∧
            cnt = (incidentConns (get_all_connections db (some ap)) r.id).length ∧ cnt < 2) ∨
       (f = .fewNodes (get_graph_stats db (some ap)).total_nodes ∧
          (get_graph_stats db (some ap)).total_nodes < 5) ∨
       (f = .fewConnections (get_graph_stats db (some ap)).total_connections ∧
          (get_graph_stats db (some ap)).total_connections < 5)) := by
  unfold validate_graph_structure
  simp only [List.mem_append, List.mem_filter, List.mem_filterMap, mem_if_singleton,
    Option.ite_none_right_eq_some, Bool.not_eq_true', Option.some_inj,
    Bool.or_eq_true, decide_eq_true_eq, List.any_eq_false, not_or]
  constructor
  · rintro (((⟨hodd, rfl⟩ | ⟨hs, ⟨hhs, hty⟩, hcon, heq⟩) |
             ⟨twy, ⟨htwy, hty⟩, hlt, heq⟩) | ⟨hlt, rfl⟩ | ⟨hlt, rfl⟩)
    · exact Or.inl ⟨_, rfl, rfl, hodd⟩
    · exact Or.inr (Or.inl ⟨hs.name, heq.symm, hs, hhs, hty, rfl, hcon⟩)
    · exact Or.inr (Or.inr (Or.inl ⟨twy.name, _, heq.symm, twy, htwy, hty, rfl, rfl, hlt⟩))
    · exact Or.inr (Or.inr (Or.inr (Or.inl ⟨rfl, hlt⟩)))
    · exact Or.inr (Or.inr (Or.inr (Or.inr ⟨rfl, hlt⟩)))
  · rintro (⟨c, rfl, rfl, hodd⟩ |
            ⟨nm, rfl, r, hr, hty, rfl, hcon⟩ |
            ⟨nm, cnt, rfl, r, hr, hty, rfl, rfl, hlt⟩ |
            ⟨rfl, hlt⟩ | ⟨rfl, hlt⟩)
    · exact Or.inl (Or.inl (Or.inl ⟨hodd, rfl⟩))
    · exact Or.inl (Or.inl (Or.inr ⟨r, ⟨hr, hty⟩, hcon, rfl⟩))
    · exact Or.inl (Or.inr ⟨r, ⟨hr, hty⟩, hlt, rfl⟩)
    · exact Or.inr (Or.inl ⟨hlt, rfl⟩)
    · exact Or.inr (Or.inr ⟨hlt, rfl⟩)

/-- C5: the validator classifies its findings exactly as the claim lists
them.  Issues: one orphan finding per node id with no incident connection
(any type), one finding per FBO/Ramp row with zero incident connections,
and one dangling finding per connection endpoint id absent from the
airport's node rows.  Warnings: an odd RunwayEnd count, each HoldShort
with no incident connection touching a RunwayEnd, each
TaxiwayIntersection with fewer than 2 incident connections, and the
under-5 node / under-5 connection size heuristics. -/
theorem C5_validator_findings (db : DB) (ap : String) (f : Finding) :
    (f ∈ (validate_graph_structure db ap).issues ↔
      ((∃ i t, f = .orphanNode i t ∧ (∃ r ∈ get_all_nodes db (some ap), r.id = i) ∧
          (∀ c ∈ get_all_connections db (some ap), c.from_id ≠ i ∧ c.to_id ≠ i) ∧
          t = (typeLookup (get_all_nodes db (some ap)) i).getD "Unknown") ∨
       (∃ ty nm, f = .unconnectedFboRamp ty nm ∧
          ∃ r ∈ get_all_nodes db (some ap), (r.type = "FBO" ∨ r.type = "Ramp") ∧
            ty = r.type ∧ nm = r.name ∧
            incidentConns (get_all_connections db (some ap)) r.id = []) ∨
       (∃ i, f = .dangling i ∧ (∀ r ∈ get_all_nodes db (some ap), r.id ≠ i) ∧
          ∃ c ∈ get_all_connections db (some ap), c.from_id = i ∨ c.to_id = i))) ∧
    (f ∈ (validate_graph_structure db ap).warnings ↔
      ((∃ c, f = .oddRunwayEnds c ∧
          c = ((get_all_nodes db (some ap)).filter (fun r => r.type = "RunwayEnd")).length ∧
          c % 2 ≠ 0) ∨
       (∃ nm, f = .holdShortNotConnected nm ∧
          ∃ r ∈ get_all_nodes db (some ap), r.type = "HoldShort" ∧ nm = r.name ∧
            ∀ c ∈ incidentConns (get_all_connections db (some ap)) r.id,
              typeLookup (get_all_nodes db (some ap)) c.to_id ≠ some "RunwayEnd" ∧
              typeLookup (get_all_nodes db (some ap)) c.from_id ≠ some "RunwayEnd") ∨
       (∃ nm cnt, f = .underConnectedIntersection nm cnt ∧
          ∃ r ∈ get_all_nodes db (some ap), r.type = "TaxiwayIntersection" ∧ nm = r.name ∧
            cnt = (incidentConns (get_all_connections db (some ap)) r.id).length ∧ cnt < 2) ∨
       (f = .fewNodes (get_graph_stats db (some ap)).total_nodes ∧
          (get_graph_stats db (some ap)).total_nodes < 5) ∨
       (f = .fewConnections (get_graph_stats db (some ap)).total_connections ∧
          (get_graph_stats db (some ap)).total_connections < 5))) :=
  ⟨C5aux_issues db ap f, C5aux_warnings db ap f⟩

end AirportGraph
